import Mathlib

/-!
Verification of the stage-graph / configuration-derivation core of the
yugabyte/build-clang repository, as a shallow embedding in Lean 4.

The embedding translates the Python sources:
  src/build_clang/constants.py
  src/build_clang/clang_build_conf.py   (class ClangBuildConf)
  src/build_clang/clang_build_stage.py  (class ClangBuildStage)
  src/build_clang/clang_builder.py      (class ClangBuilder)
  src/build_clang/cmd_line_args.py      (parse_args)

Pure Python functions become Lean functions; Python `assert` and `raise`
become `Except String`; external facts (OS kind, machine, discovered
system compiler, filesystem contents, clock readings) are explicit inputs.
-/

namespace BuildClang

/-! ## Python string primitives, modelled over `String.data` -/

/-- Python `s.startswith(p)`. -/
def pyStartswith (s p : String) : Bool := p.data.isPrefixOf s.data

/-- Python `s.endswith(p)`. -/
def pyEndswith (s p : String) : Bool := p.data.isSuffixOf s.data

/-- Python `s[a:-b]` (for `b > 0`): the characters from index `a` up to
index `len(s) - b` (exclusive). -/
def pySliceTrim (s : String) (a b : Nat) : String :=
  ⟨(s.data.drop a).take (s.data.length - a - b)⟩

/-- Python `os.path.basename`: the part of the path after the last slash. -/
def os_path_basename (s : String) : String :=
  ⟨(s.data.reverse.takeWhile (fun c => c ≠ '/')).reverse⟩

/-- Python `os.path.join` for a relative second component. -/
def pathJoin (a b : String) : String := a ++ "/" ++ b

def pathJoin3 (a b c : String) : String := pathJoin (pathJoin a b) c

/-- Python truthiness of an optional string: `None` and `''` are falsy. -/
def pyTruthyStr : Option String → Bool
  | none => false
  | some s => !(s == "")

/-- Python `a or b` where `a` is an optional string and `b` a string. -/
def pyOrStr (a : Option String) (b : String) : String :=
  match a with
  | none => b
  | some s => if s == "" then b else s

/-! ## constants.py -/

def NUM_NON_LTO_STAGES : Nat := 3

def GIT_SHA1_PREFIX_LENGTH : Nat := 8

def YB_LLVM_ARCHIVE_NAME_PREFIX : String := "yb-llvm-"

def BUILD_DIR_SUFFIX : String := "build"

def NAME_COMPONENT_SEPARATOR : String := "-"

def BUILD_DIR_SUFFIX_WITH_SEPARATOR : String :=
  NAME_COMPONENT_SEPARATOR ++ BUILD_DIR_SUFFIX

def GIT_SHA1_PLACEHOLDER_STR : String := "GIT_SHA1_PLACEHOLDER"

def LLVM_PROJECT_CLONE_REL_PATH : String := pathJoin "src" "llvm-project"

/-! ## Platform facts

The sources consult `sys_detection` (`is_linux`, `is_macos`,
`local_sys_conf().short_os_name_and_version()`, `.architecture`),
`platform.machine()`, and discover a bootstrap system compiler
(`devtoolset.find_latest_gcc`, a version-preferred search of the local
filesystem, which the spec treats as an external collaborator).  All of
these are facts about the machine the build runs on; we pass them as one
explicit record. -/

inductive OsKind where
  | linux
  | macos
  | otherOs
deriving DecidableEq

structure PlatformFacts where
  os_kind : OsKind
  /-- `platform.machine()` -/
  machine : String
  /-- `sys_detection.local_sys_conf().short_os_name_and_version()` -/
  short_os_name_and_version : String
  /-- `sys_detection.local_sys_conf().architecture` -/
  architecture : String
  /-- C compiler path produced by the external `find_latest_gcc` search. -/
  system_c_compiler : String
  /-- C++ compiler path produced by the external `find_latest_gcc` search. -/
  system_cxx_compiler : String
  /-- Directory holding the build_clang Python modules (Python `__file__`
  base directory, used for the compiler-wrapper script paths). -/
  module_base_dir : String

def PlatformFacts.is_linux (p : PlatformFacts) : Bool :=
  match p.os_kind with
  | .linux => true
  | _ => false

def PlatformFacts.is_macos (p : PlatformFacts) : Bool :=
  match p.os_kind with
  | .macos => true
  | _ => false

/-! ## CMake option values (helpers.py `to_cmake_option`) -/

/-- A CMake option value as the sources use them: either a string or a
boolean (Python `Union[str, bool]`). -/
inductive CMakeVal where
  | str : String → CMakeVal
  | bool : Bool → CMakeVal
deriving DecidableEq

/-- helpers.py `to_cmake_option`: booleans become ON/OFF, strings pass
through.  (The Python `ValueError` branch for other types is unreachable
here by typing.) -/
def to_cmake_option : CMakeVal → String
  | .str s => s
  | .bool true => "ON"
  | .bool false => "OFF"

/-- A Python dict with string keys, as an insertion-ordered association
list (Python 3.7+ dict semantics). -/
def VarMap (α : Type) : Type := List (String × α)

/-- `d[k] = v` on a Python dict: replace in place if the key is present,
append otherwise. -/
def dictInsert : List (String × α) → String → α → List (String × α)
  | [], k, v => [(k, v)]
  | (k', v') :: rest, k, v =>
    if k' = k then (k', v) :: rest else (k', v') :: dictInsert rest k v

/-- `d.update(d2)` on Python dicts. -/
def dictUpdate (m new : List (String × α)) : List (String × α) :=
  new.foldl (fun acc kv => dictInsert acc kv.1 kv.2) m

/-- `d[k]` lookup (as an `Option`). -/
def lookupVar : List (String × α) → String → Option α
  | [], _ => none
  | (k', v) :: rest, k => if k' = k then some v else lookupVar rest k

/-! ## helpers that other modules import but that are absent from the
`src/` snapshot of helpers.py -/

/-- Split a character list at every occurrence of `sep` (the semantics of
Python `str.split` with an explicit separator). -/
def splitOnChar (sep : Char) : List Char → List (List Char)
  | [] => [[]]
  | c :: rest =>
    let r := splitOnChar sep rest
    if c = sep then [] :: r
    else
      match r with
      | [] => [[c]]
      | h :: t => (c :: h) :: t

/-- Parse a non-empty all-digit character list as a decimal number
(Python `int(...)`, restricted to the plain-digits case). -/
def parseNat? (cs : List Char) : Option Nat :=
  if cs ≠ [] ∧ cs.all (fun c => c.isDigit) then
    some (cs.foldl (fun n c => n * 10 + (c.toNat - '0'.toNat)) 0)
  else none

/-- Modelled from the spec: helpers.py `get_major_version` (imported by
clang_build_conf.py but missing from the src/ snapshot of helpers.py).
The spec describes the version as "semver + optional vendor suffix" with a
"derived major-version integer", so the major version is the numeric
component before the first dot. -/
def get_major_version (version : String) : Option Nat :=
  parseNat? ((splitOnChar '.' version.data).headD [])

/-- Modelled from the spec: helpers.py `get_rpath_flag` (imported by
clang_build_stage.py but missing from the src/ snapshot of helpers.py).
The spec calls for "explicit relative run-path injection", i.e. a linker
flag embedding the given directory as an rpath. -/
def get_rpath_flag (path : String) : String := "-Wl,-rpath," ++ path

/-! ## clang_build_conf.py: class ClangBuildConf -/

structure ClangBuildConf where
  install_parent_dir : String
  version : String
  llvm_major_version : Nat
  user_specified_suffix : Option String
  skip_auto_suffix : Bool
  git_sha1_prefix : Option String
  cmake_executable_path : String
  clean_build : Bool
  build_start_timestamp_str : String
  use_compiler_wrapper : Bool
  use_compiler_rt : Bool
  unix_timestamp_for_suffix : Option String
  existing_build_dir : Option String
  tag_override : Option String
  parallelism : Option Nat
  /-- Set from the command line in the newer cmd_line_args.py pipeline
  and read by clang_build_stage.py (`build_conf.target_arch`). -/
  target_arch : String
  /-- Set from `--with_openmp` in the newer cmd_line_args.py pipeline and
  read by clang_build_stage.py (`build_conf.openmp_enabled`). -/
  openmp_enabled : Bool
deriving DecidableEq

/-- `ClangBuildConf.__init__`.  The two clock readings
(`get_current_timestamp_str()` and `int(time.time())`) are external
inputs.  Failure cases: a non-numeric version, the
`assert self.llvm_major_version >= 7`, and the two `ValueError`s for a
malformed `existing_build_dir` basename. -/
def ClangBuildConf.init
    (install_parent_dir version : String)
    (user_specified_suffix : Option String)
    (skip_auto_suffix clean_build use_compiler_wrapper use_compiler_rt : Bool)
    (existing_build_dir : Option String)
    (parallelism : Option Nat)
    (build_start_timestamp_str unix_timestamp_now : String)
    (target_arch : String)
    (openmp_enabled : Bool) : Except String ClangBuildConf :=
  match get_major_version version with
  | none => .error ("Cannot parse major version from: " ++ version)
  | some major =>
    if major < 7 then
      .error "assertion failed: self.llvm_major_version >= 7"
    else
      let base : ClangBuildConf := {
        install_parent_dir := install_parent_dir
        version := version
        llvm_major_version := major
        user_specified_suffix := user_specified_suffix
        skip_auto_suffix := skip_auto_suffix
        git_sha1_prefix := none
        cmake_executable_path := "cmake"
        clean_build := clean_build
        build_start_timestamp_str := build_start_timestamp_str
        use_compiler_wrapper := use_compiler_wrapper
        use_compiler_rt := use_compiler_rt
        unix_timestamp_for_suffix := none
        existing_build_dir := existing_build_dir
        tag_override := none
        parallelism := parallelism
        target_arch := target_arch
        openmp_enabled := openmp_enabled }
      match existing_build_dir with
      | some ebd =>
        let build_dir_basename := os_path_basename ebd
        if ¬ pyEndswith build_dir_basename BUILD_DIR_SUFFIX_WITH_SEPARATOR then
          .error ("Invalid existing build directory basename: '" ++ build_dir_basename ++
            "', does not end with '" ++ BUILD_DIR_SUFFIX_WITH_SEPARATOR ++ "'.")
        else if ¬ pyStartswith build_dir_basename YB_LLVM_ARCHIVE_NAME_PREFIX then
          .error ("Invalid existing build directory basename: '" ++ build_dir_basename ++
            "', does not start with '" ++ YB_LLVM_ARCHIVE_NAME_PREFIX ++ "'.")
        else
          .ok { base with
            tag_override := some (pySliceTrim build_dir_basename
              YB_LLVM_ARCHIVE_NAME_PREFIX.length
              BUILD_DIR_SUFFIX_WITH_SEPARATOR.length) }
      | none =>
        .ok { base with unix_timestamp_for_suffix := some unix_timestamp_now }

/-- `ClangBuildConf.get_tag`. -/
def ClangBuildConf.get_tag (conf : ClangBuildConf) (p : PlatformFacts) : String :=
  if pyTruthyStr conf.tag_override then
    conf.tag_override.getD ""
  else
    let top_dir_suffix :=
      if conf.skip_auto_suffix then ""
      else
        let components := ([
          conf.unix_timestamp_for_suffix,
          some (pyOrStr conf.git_sha1_prefix GIT_SHA1_PLACEHOLDER_STR),
          (if conf.use_compiler_rt then none else some "no-compiler-rt"),
          conf.user_specified_suffix,
          some p.short_os_name_and_version,
          some p.architecture
        ].filter pyTruthyStr).map (fun c => c.getD "")
        NAME_COMPONENT_SEPARATOR ++
          String.intercalate NAME_COMPONENT_SEPARATOR components
    "v" ++ conf.version ++ top_dir_suffix

/-- `ClangBuildConf.get_install_dir_basename`. -/
def ClangBuildConf.get_install_dir_basename
    (conf : ClangBuildConf) (p : PlatformFacts) : String :=
  YB_LLVM_ARCHIVE_NAME_PREFIX ++ conf.get_tag p

/-- `ClangBuildConf.get_llvm_build_parent_dir`. -/
def ClangBuildConf.get_llvm_build_parent_dir
    (conf : ClangBuildConf) (p : PlatformFacts) : String :=
  pathJoin conf.install_parent_dir
    (conf.get_install_dir_basename p ++ BUILD_DIR_SUFFIX_WITH_SEPARATOR)

/-- `ClangBuildConf.get_final_install_dir`. -/
def ClangBuildConf.get_final_install_dir
    (conf : ClangBuildConf) (p : PlatformFacts) : String :=
  pathJoin conf.install_parent_dir (conf.get_install_dir_basename p)

/-- `ClangBuildConf.get_llvm_build_info_dir`. -/
def ClangBuildConf.get_llvm_build_info_dir
    (conf : ClangBuildConf) (p : PlatformFacts) : String :=
  pathJoin3 (conf.get_final_install_dir p) "etc" "yb-llvm-build-info"

/-- `ClangBuildConf.get_llvm_project_clone_dir`. -/
def ClangBuildConf.get_llvm_project_clone_dir
    (conf : ClangBuildConf) (p : PlatformFacts) : String :=
  pathJoin (conf.get_llvm_build_parent_dir p) LLVM_PROJECT_CLONE_REL_PATH

/-! ## clang_build_stage.py: class ClangBuildStage -/

/-- Python `str.strip()`: remove leading and trailing whitespace. -/
def pyStrip (cs : List Char) : List Char :=
  ((cs.dropWhile Char.isWhitespace).reverse.dropWhile Char.isWhitespace).reverse

/-- helpers.py `multiline_str_to_list`: strip the whole string, split on
newlines, strip each line, keep the non-empty ones. -/
def multiline_str_to_list (s : String) : List String :=
  let lines := splitOnChar '\n' (pyStrip s.data)
  let lines := lines.map pyStrip
  (lines.filter (fun l => l ≠ [])).map (fun l => ⟨l⟩)

/-- Code-point lexicographic comparison of strings (as character lists),
the order Python `sorted` uses for `str`. -/
def charListLe : List Char → List Char → Bool
  | [], _ => true
  | _ :: _, [] => false
  | a :: as, b :: bs =>
    if a < b then true else if b < a then false else charListLe as bs

/-- Python `sorted` on a list of strings (code-point lexicographic; any
sorting algorithm yields the same list for a linear order, and insertion
sort keeps the definition kernel-computable). -/
def pySorted (l : List String) : List String :=
  l.insertionSort (fun a b => charListLe a.data b.data = true)

/-- compiler_wrapper.py `get_cmake_args_for_compiler_wrapper`. -/
def get_cmake_args_for_compiler_wrapper (p : PlatformFacts) : List (String × CMakeVal) :=
  [("CMAKE_C_COMPILER", .str (pathJoin p.module_base_dir "compiler_wrapper_cc.py")),
   ("CMAKE_CXX_COMPILER", .str (pathJoin p.module_base_dir "compiler_wrapper_cxx.py"))]

structure ClangBuildStage where
  stage_number : Nat
  /-- Previous stage, or `none` for stage 1 (a full back-reference, as in
  the Python field `prev_stage`). -/
  prev_stage : Option ClangBuildStage
  stage_base_dir : String
  cmake_build_dir : String
  compiler_invocations_top_dir : String
  install_prefix : String
  is_last_non_lto_stage : Bool
  lto : Bool

/-- `ClangBuildStage.__init__` (the computed fields).  The constructor's
`assert prev_stage.stage_number != stage_number` always holds for stages
produced by `init_stages`, which is proved as part of the numbering
invariant below. -/
def ClangBuildStage.init (conf : ClangBuildConf) (p : PlatformFacts)
    (stage_number : Nat) (prev_stage : Option ClangBuildStage)
    (is_last_non_lto_stage lto : Bool) : ClangBuildStage :=
  let parent_dir_for_llvm_version := conf.get_llvm_build_parent_dir p
  let stage_base_dir :=
    pathJoin parent_dir_for_llvm_version ("stage-" ++ toString stage_number)
  let cmake_build_dir := pathJoin stage_base_dir "build"
  let compiler_invocations_top_dir := pathJoin stage_base_dir "compiler_invocations"
  let install_prefix :=
    if is_last_non_lto_stage then conf.get_final_install_dir p
    else pathJoin stage_base_dir "installed"
  { stage_number := stage_number
    prev_stage := prev_stage
    stage_base_dir := stage_base_dir
    cmake_build_dir := cmake_build_dir
    compiler_invocations_top_dir := compiler_invocations_top_dir
    install_prefix := install_prefix
    is_last_non_lto_stage := is_last_non_lto_stage
    lto := lto }

/-- `ClangBuildStage.is_first_stage`. -/
def ClangBuildStage.is_first_stage (stage : ClangBuildStage) : Bool :=
  stage.prev_stage.isNone

/-- `ClangBuildStage.get_enabled_runtimes`. -/
def ClangBuildStage.get_enabled_runtimes (conf : ClangBuildConf)
    (stage : ClangBuildStage) : List String :=
  let runtimes := ["libunwind"]
  let runtimes :=
    if ¬ stage.is_first_stage then runtimes ++ ["libcxx", "libcxxabi", "compiler-rt"]
    else runtimes
  if stage.is_last_non_lto_stage ∧ conf.openmp_enabled then runtimes ++ ["openmp"]
  else runtimes

/-- `ClangBuildStage.get_enabled_projects`. -/
def ClangBuildStage.get_enabled_projects (conf : ClangBuildConf) (p : PlatformFacts)
    (stage : ClangBuildStage) : List String :=
  let enabled_projects := multiline_str_to_list "\n            clang\n            lld\n        "
  let llvm_major_version := conf.llvm_major_version
  let enabled_projects :=
    if llvm_major_version ≤ 15 then enabled_projects ++ stage.get_enabled_runtimes conf
    else enabled_projects
  let enabled_projects :=
    if stage.is_last_non_lto_stage ∧ ¬ stage.lto then
      let enabled_projects := enabled_projects ++ ["clang-tools-extra"]
      if 10 ≤ llvm_major_version ∧ ¬ (13 ≤ llvm_major_version ∧ p.is_macos) then
        enabled_projects ++ ["lldb"]
      else enabled_projects
    else enabled_projects
  pySorted enabled_projects

/-- `ClangBuildStage.get_compilers`.  For stage 1 the pair is the
externally discovered system compiler (`find_latest_gcc`); later stages
use the predecessor's installed clang/clang++.  The Python
`assert self.prev_stage is not None` becomes the error case. -/
def ClangBuildStage.get_compilers (p : PlatformFacts)
    (stage : ClangBuildStage) : Except String (String × String) :=
  if stage.stage_number = 1 then
    .ok (p.system_c_compiler, p.system_cxx_compiler)
  else
    match stage.prev_stage with
    | none => .error "assertion failed: self.prev_stage is not None"
    | some prev =>
      .ok (pathJoin3 prev.install_prefix "bin" "clang",
           pathJoin3 prev.install_prefix "bin" "clang++")

/-- `ClangBuildStage.get_llvm_cmake_variables`, translated statement by
statement.  Note the faithful re-binding of `vars`: the source assigns
`vars['CLANG_DEFAULT_CXX_STDLIB'] = 'libc++'` for non-first stages and
then rebinds `vars = dict(...)` to a fresh dict literal, so that entry is
discarded. -/
def ClangBuildStage.get_llvm_cmake_variables (conf : ClangBuildConf)
    (p : PlatformFacts) (stage : ClangBuildStage) :
    Except String (List (String × String)) :=
  let use_compiler_rt := conf.use_compiler_rt
  let vars : List (String × CMakeVal) :=
    if ¬ stage.is_first_stage then
      dictInsert [] "CLANG_DEFAULT_CXX_STDLIB" (.str "libc++")
    else []
  let vars : List (String × CMakeVal) := [
    ("LLVM_ENABLE_PROJECTS",
      .str (String.intercalate ";" (stage.get_enabled_projects conf p))),
    ("CMAKE_INSTALL_PREFIX", .str stage.install_prefix),
    ("CMAKE_BUILD_TYPE", .str "Release"),
    ("LLVM_TARGETS_TO_BUILD", .str "X86;AArch64"),
    ("BUILD_SHARED_LIBS", .bool true),
    ("CMAKE_EXPORT_COMPILE_COMMANDS", .bool true),
    ("LLVM_ENABLE_RTTI", .bool true),
    ("LLVM_ENABLE_ZSTD", .bool false)]
  let vars :=
    if 16 ≤ conf.llvm_major_version then
      dictInsert vars "LLVM_ENABLE_RUNTIMES"
        (.str (String.intercalate ";" (stage.get_enabled_runtimes conf)))
    else vars
  let vars :=
    if p.is_macos then
      dictUpdate vars [
        ("COMPILER_RT_ENABLE_IOS", .bool false),
        ("COMPILER_RT_ENABLE_WATCHOS", .bool false),
        ("COMPILER_RT_ENABLE_TVOS", .bool false)]
    else vars
  let vars :=
    if 3 ≤ stage.stage_number ∧ use_compiler_rt then
      dictUpdate vars [
        ("LIBCXXABI_USE_COMPILER_RT", .bool true),
        ("LIBUNWIND_USE_COMPILER_RT", .bool true),
        ("LIBCXX_USE_COMPILER_RT", .bool true)]
    else vars
  let vars :=
    match stage.prev_stage with
    | none => vars
    | some prev =>
      let vars := dictInsert vars "LIBCXXABI_USE_LLVM_UNWINDER" (.bool true)
      let extra_linker_flags : List String :=
        if p.is_linux ∧ conf.use_compiler_rt then ["-Wl,--exclude-libs,libgcc.a"]
        else []
      let vars := if p.is_linux then dictInsert vars "LLVM_ENABLE_LLD" (.bool true) else vars
      let extra_linker_flags := extra_linker_flags ++
        (if 3 ≤ stage.stage_number ∧ p.is_linux ∧
            p.short_os_name_and_version = "amzn2" ∧ p.machine = "aarch64" then
          ["-lc++"]
        else [])
      let os_specific_lib_dir := "lib/" ++ p.machine ++ "-unknown-linux-gnu"
      let extra_rpath_flags : List String :=
        if 3 ≤ stage.stage_number ∧ p.is_linux ∧ 15 ≤ conf.llvm_major_version then
          [get_rpath_flag ("\\$ORIGIN/../" ++ os_specific_lib_dir)] ++
          (if 16 ≤ conf.llvm_major_version then
            [get_rpath_flag (pathJoin prev.install_prefix os_specific_lib_dir)]
          else [])
        else []
      let extra_linker_flags := extra_linker_flags ++ extra_rpath_flags
      let extra_linker_flags_str := String.intercalate " " extra_linker_flags
      let vars := dictUpdate vars [
        ("CMAKE_SHARED_LINKER_FLAGS_INIT", .str extra_linker_flags_str),
        ("CMAKE_MODULE_LINKER_FLAGS_INIT", .str extra_linker_flags_str),
        ("CMAKE_EXE_LINKER_FLAGS_INIT", .str extra_linker_flags_str)]
      let vars :=
        if 3 ≤ stage.stage_number ∧ p.is_linux ∧ 16 ≤ conf.llvm_major_version then
          dictUpdate vars [
            ("SANITIZER_COMMON_LINK_FLAGS",
              .str (String.intercalate ";" ["-lc++abi", "-lunwind"])),
            ("SANITIZER_TEST_CXX_LIBRARIES", .str "-lunwind")]
        else vars
      let vars :=
        if stage.is_last_non_lto_stage then
          dictInsert vars "LLVM_BUILD_TESTS" (.bool true)
        else vars
      let vars :=
        if stage.lto then
          dictUpdate (dictUpdate vars [("LLVM_ENABLE_LTO", .str "Full")])
            [("BUILD_SHARED_LIBS", .bool false)]
        else vars
      vars
  let vars :=
    if 3 ≤ stage.stage_number then
      dictUpdate vars [
        ("SANITIZER_ALLOW_CXXABI", .bool true),
        ("SANITIZER_CXX_ABI", .str "libc++"),
        ("LLVM_ENABLE_LIBCXX", .bool true),
        ("CLANG_DEFAULT_RTLIB", .str "compiler-rt")]
    else vars
  let compilerVarsE : Except String (List (String × CMakeVal)) :=
    if conf.use_compiler_wrapper then
      .ok (get_cmake_args_for_compiler_wrapper p)
    else
      (stage.get_compilers p).map (fun cc =>
        [("CMAKE_C_COMPILER", CMakeVal.str cc.1),
         ("CMAKE_CXX_COMPILER", CMakeVal.str cc.2)])
  match compilerVarsE with
  | .error e => .error e
  | .ok compilerVars =>
    let vars := dictUpdate vars compilerVars
    .ok (vars.map (fun kv => (kv.1, to_cmake_option kv.2)))

/-! ## clang_builder.py: ClangBuilder.init_stages -/

/-- `ClangBuilder.init_stages`: three ordinary stages, plus one extra
LTO variant of the last stage when `lto` is set; `effective_stage_number`
numbers the stages consecutively, and each stage's predecessor is the
previously appended stage (`self.stages[-1] if self.stages else None`). -/
def init_stages (conf : ClangBuildConf) (p : PlatformFacts) (lto : Bool) :
    List ClangBuildStage :=
  let step : List ClangBuildStage × Nat → Nat → List ClangBuildStage × Nat :=
    fun acc stage_number =>
      let lto_values : List Bool :=
        if stage_number = NUM_NON_LTO_STAGES ∧ lto then [false, true] else [false]
      lto_values.foldl (fun acc2 ltoVal =>
        let stages := acc2.1
        let effective_stage_number := acc2.2
        let st := ClangBuildStage.init conf p effective_stage_number
          stages.getLast?
          (decide (stage_number = NUM_NON_LTO_STAGES) && !ltoVal)
          ltoVal
        (stages ++ [st], effective_stage_number + 1)) acc
  ((List.range' 1 NUM_NON_LTO_STAGES).foldl step ([], 1)).1

/-! ## The stage executor (`ClangBuildStage.build`), as an effect trace

External configure/build/install tool invocations are opaque
(`run_cmd(...)` → `runExternal`); what the executor itself does to the
filesystem is recorded as explicit actions.  Filesystem facts the
executor consults (`os.path.exists`, `os.path.islink`, `os.readlink`)
are an explicit oracle. -/

structure FsFacts where
  path_exists : String → Bool
  is_link : String → Bool
  /-- `os.path.basename(os.readlink(path))` for a symlink `path`. -/
  readlink_basename : String → String

inductive BuildAction where
  /-- `rm_rf` of a directory tree. -/
  | rmTree (path : String)
  /-- `mkdir_p`. -/
  | makeDirs (path : String)
  /-- `run_cmd` of an external program (cmake / ninja). -/
  | runExternal (argv : List String)
  /-- `shutil.copyfile src dst`. -/
  | copyFile (src dst : String)
  /-- `make_file_executable`. -/
  | makeExecutable (path : String)
  /-- `validate_build_output_arch` (runs `file` on outputs; read-only). -/
  | validateArch (arch dir : String)
deriving DecidableEq

/-- architecture.py `get_arch_switch_cmd_prefix`. -/
def get_arch_switch_cmd_prefix (p : PlatformFacts) (target_arch : String) :
    List String :=
  if ¬ p.is_macos then [] else ["arch", "-" ++ target_arch]

/-- `ClangBuildStage._run_ninja`: the argv of one ninja invocation. -/
def run_ninja_argv (conf : ClangBuildConf) (p : PlatformFacts)
    (args : List String) : List String :=
  get_arch_switch_cmd_prefix p conf.target_arch ++ ["ninja"] ++
  (match conf.parallelism with
   | some n => ["-j" ++ toString n]
   | none => []) ++ args

/-- helpers `cmake_vars_to_args`. -/
def cmake_vars_to_args (vars : List (String × String)) : List String :=
  vars.map (fun kv => "-D" ++ kv.1 ++ "=" ++ kv.2)

/-- `ClangBuildStage.install_binary_to_final_dir`: raises `IOError` if the
source binary is missing; resolves a symlink to the link target's
basename; copies into the **final** install directory and marks the copy
executable. -/
def ClangBuildStage.install_binary_to_final_dir (conf : ClangBuildConf)
    (p : PlatformFacts) (fs : FsFacts) (stage : ClangBuildStage)
    (binary_name : String) : Except String (List BuildAction) :=
  let src_path := pathJoin3 stage.cmake_build_dir "bin" binary_name
  if ¬ fs.path_exists src_path then
    .error ("File does not exist: " ++ src_path)
  else
    let binary_name :=
      if fs.is_link src_path then fs.readlink_basename src_path else binary_name
    let binary_rel_path := pathJoin "bin" binary_name
    let src_path := pathJoin stage.cmake_build_dir binary_rel_path
    let dst_path := pathJoin (conf.get_final_install_dir p) binary_rel_path
    .ok [.copyFile src_path dst_path, .makeExecutable dst_path]

/-- The explicit target sequence of `ClangBuildStage.build` (lines
361-369): runtime targets first for non-first stages — in an order that
flips at LLVM 16, where compiler-rt started depending on libc++abi —
then `clang`. -/
def ClangBuildStage.explicit_build_targets (conf : ClangBuildConf)
    (stage : ClangBuildStage) : List String :=
  let targets : List String := []
  let targets :=
    if ¬ stage.is_first_stage then
      (if 16 ≤ conf.llvm_major_version then ["cxxabi", "compiler-rt", "cxx"]
       else ["compiler-rt", "cxxabi", "cxx"]) ++ targets
    else targets
  targets ++ ["clang"]

/-- `ClangBuildStage.build` as the sequence of actions it performs.
(`ChangeDir` and `EnvVarContext` scope the working directory and
environment variables and restore them on exit; they do not touch
files and are not recorded.) -/
def ClangBuildStage.build_actions (conf : ClangBuildConf) (p : PlatformFacts)
    (fs : FsFacts) (stage : ClangBuildStage) :
    Except String (List BuildAction) := do
  let acts : List BuildAction :=
    if fs.path_exists stage.cmake_build_dir ∧ conf.clean_build then
      [.rmTree stage.cmake_build_dir]
    else []
  let _compilers ← stage.get_compilers p
  let compiler_invocations_dir :=
    pathJoin stage.compiler_invocations_top_dir conf.build_start_timestamp_str
  let acts := acts ++ [.makeDirs compiler_invocations_dir, .makeDirs stage.cmake_build_dir]
  let cmake_vars ← stage.get_llvm_cmake_variables conf p
  let acts := acts ++ [.runExternal ( get_arch_switch_cmd_prefix p conf.target_arch ++
    [conf.cmake_executable_path, "-G", "Ninja",
     "-S", pathJoin (conf.get_llvm_project_clone_dir p) "llvm"] ++
    cmake_vars_to_args cmake_vars)]
  let targets := stage.explicit_build_targets conf
  let acts := acts ++ targets.map (fun t => .runExternal (run_ninja_argv conf p [t]))
  if stage.lto then
    let lto_binaries := ["clang", "lld"]
    let acts := acts ++ [.runExternal (run_ninja_argv conf p lto_binaries)]
    let i1 ← stage.install_binary_to_final_dir conf p fs "clang"
    let i2 ← stage.install_binary_to_final_dir conf p fs "lld"
    pure (acts ++ i1 ++ i2 ++ [.validateArch conf.target_arch stage.install_prefix])
  else
    let acts := acts ++ [.runExternal (run_ninja_argv conf p [])]
    let acts := acts ++
      (if stage.is_last_non_lto_stage then
        [.runExternal (run_ninja_argv conf p ["clangd"]),
         .runExternal (run_ninja_argv conf p ["clangd-indexer"])]
      else [])
    let acts := acts ++ [.runExternal (run_ninja_argv conf p ["install"])]
    if stage.is_last_non_lto_stage then
      let i ← stage.install_binary_to_final_dir conf p fs "clangd-indexer"
      let copies := ["CMakeCache.txt", "compile_commands.json"].map (fun f =>
        BuildAction.copyFile (pathJoin stage.cmake_build_dir f)
          (pathJoin (conf.get_llvm_build_info_dir p) f))
      pure (acts ++ i ++ copies ++ [.validateArch conf.target_arch stage.install_prefix])
    else
      pure (acts ++ [.validateArch conf.target_arch stage.install_prefix])

/-! ## cmd_line_args.py: the stage/LTO/PGO validation in `parse_args` -/

/-- The `parse_args` inputs that the stage/LTO/PGO validation consumes.
`none` for `lto`/`pgo` means the flag was not given on the command line
(argparse `default=None`). -/
structure CmdLineArgs where
  lto : Option Bool
  pgo : Option Bool
  min_stage : Int
  max_stage : Option Int
  skip_build : Bool
deriving DecidableEq

structure ResolvedStageArgs where
  lto : Bool
  pgo : Bool
  min_stage : Int
  max_stage : Option Int
deriving DecidableEq

/-- cmd_line_args.py `parse_args`, lines 158-189: flag defaulting and the
configuration-error checks, all of which happen before any external
work (the first side-effecting step of the pipeline comes later). -/
def parse_args_stage_logic (a : CmdLineArgs) : Except String ResolvedStageArgs :=
  let lto := a.lto.getD true
  let pgo := a.pgo.getD lto
  let max_allowed_stage : Int :=
    (NUM_NON_LTO_STAGES : Int) + (if pgo then 3 else if lto then 1 else 0)
  if pgo ∧ ¬ lto then
    .error "PGO build requires LTO enabled"
  else if ¬ a.skip_build then
    let max_stage := a.max_stage.getD max_allowed_stage
    if a.min_stage < 1 then
      .error ("--min_stage value too low: " ++ toString a.min_stage)
    else if max_allowed_stage < max_stage then
      .error ("--max_stage value too high: " ++ toString max_stage)
    else if max_stage < a.min_stage then
      .error ("--min-stage value (" ++ toString a.min_stage ++
        ") is greater than --max-stage value (" ++ toString max_stage ++ ")")
    else
      .ok { lto := lto, pgo := pgo, min_stage := a.min_stage,
            max_stage := some max_stage }
  else
    .ok { lto := lto, pgo := pgo, min_stage := a.min_stage,
          max_stage := a.max_stage }

/-! ## clang_builder.py: the stage-selection loop of `ClangBuilder.run` -/

/-- `ClangBuilder.run`, lines 408-412: the effective maximum stage is the
parsed `--max_stage`, **overridden to `NUM_NON_LTO_STAGES + 1` whenever
LTO is enabled**. -/
def effective_max_stage (lto : Bool) (max_stage : Int) : Int :=
  if lto then (NUM_NON_LTO_STAGES : Int) + 1 else max_stage

/-- The stages `ClangBuilder.run` actually builds, in the order the loop
visits them. -/
def built_stages (conf : ClangBuildConf) (p : PlatformFacts) (lto : Bool)
    (min_stage max_stage : Int) : List ClangBuildStage :=
  (init_stages conf p lto).filter (fun st =>
    min_stage ≤ (st.stage_number : Int) ∧
    (st.stage_number : Int) ≤ effective_max_stage lto max_stage)

def built_stage_numbers (conf : ClangBuildConf) (p : PlatformFacts) (lto : Bool)
    (min_stage max_stage : Int) : List Nat :=
  (built_stages conf p lto min_stage max_stage).map (fun st => st.stage_number)

/-! ## Concrete fixtures used for witnesses and counterexamples -/

def examplePlatform : PlatformFacts := {
  os_kind := .linux
  machine := "x86_64"
  short_os_name_and_version := "centos7"
  architecture := "x86_64"
  system_c_compiler := "/usr/bin/gcc"
  system_cxx_compiler := "/usr/bin/g++"
  module_base_dir := "/opt/build-clang/src/build_clang" }

def exampleConf : ClangBuildConf := {
  install_parent_dir := "/opt/yb-build/llvm"
  version := "16.0.6-yb-3"
  llvm_major_version := 16
  user_specified_suffix := none
  skip_auto_suffix := false
  git_sha1_prefix := none
  cmake_executable_path := "cmake"
  clean_build := false
  build_start_timestamp_str := "2026-01-01T00-00-00.000000"
  use_compiler_wrapper := false
  use_compiler_rt := true
  unix_timestamp_for_suffix := some "1760000000"
  existing_build_dir := none
  tag_override := none
  parallelism := none
  target_arch := "x86_64"
  openmp_enabled := true }

/-- `exampleConf` really is an output of the configuration constructor. -/
theorem exampleConf_from_init :
    ClangBuildConf.init "/opt/yb-build/llvm" "16.0.6-yb-3" none
      false false false true none none
      "2026-01-01T00-00-00.000000" "1760000000" "x86_64" true =
      .ok exampleConf := by rfl

/-- A filesystem oracle on which every consulted path exists and nothing
is a symlink. -/
def exampleFs : FsFacts := {
  path_exists := fun _ => true
  is_link := fun _ => false
  readlink_basename := fun _ => "" }

/-! ## Characterization of the stage graph -/

/-- The first ordinary stage built by `init_stages`. -/
def stageOne (conf : ClangBuildConf) (p : PlatformFacts) : ClangBuildStage :=
  ClangBuildStage.init conf p 1 none false false

def stageTwo (conf : ClangBuildConf) (p : PlatformFacts) : ClangBuildStage :=
  ClangBuildStage.init conf p 2 (some (stageOne conf p)) false false

def stageThree (conf : ClangBuildConf) (p : PlatformFacts) : ClangBuildStage :=
  ClangBuildStage.init conf p 3 (some (stageTwo conf p)) true false

def stageFourLto (conf : ClangBuildConf) (p : PlatformFacts) : ClangBuildStage :=
  ClangBuildStage.init conf p 4 (some (stageThree conf p)) false true

theorem init_stages_false_eq (conf : ClangBuildConf) (p : PlatformFacts) :
    init_stages conf p false = [stageOne conf p, stageTwo conf p, stageThree conf p] :=
  rfl

theorem init_stages_true_eq (conf : ClangBuildConf) (p : PlatformFacts) :
    init_stages conf p true =
      [stageOne conf p, stageTwo conf p, stageThree conf p, stageFourLto conf p] :=
  rfl

theorem init_stages_map_number (conf : ClangBuildConf) (p : PlatformFacts)
    (lto : Bool) :
    (init_stages conf p lto).map (fun st => st.stage_number) =
      List.range' 1 (init_stages conf p lto).length := by
  cases lto <;> rfl

/-! ## Claim C2 (corrected) -/

/-- C2, counterexample.  The claim instantiated with `enable_LTO = true`
and `enable_PGO = true` requires the stage graph builder to produce
`3 + 1 + 3 = 7` stages; `init_stages` (which consumes no PGO flag at all)
produces 4.  The graph therefore does not gain three PGO stages when PGO
is enabled. -/
theorem init_stages_pgo_counterexample :
    ¬ ((init_stages exampleConf examplePlatform true).length =
        NUM_NON_LTO_STAGES + 1 + 3) := by decide

/-- C2, amended: for every flag combination the stage graph builder
produces exactly `NUM_NON_LTO_STAGES = 3` ordinary (non-LTO) stages, and
appends exactly one LTO stage iff `enable_LTO` is set; it never appends
PGO stages (the builder takes no PGO input). -/
theorem init_stages_shape (conf : ClangBuildConf) (p : PlatformFacts)
    (lto : Bool) :
    ((init_stages conf p lto).filter (fun st => !st.lto)).length =
      NUM_NON_LTO_STAGES
    ∧ ((init_stages conf p lto).filter (fun st => st.lto)).length =
      (if lto then 1 else 0)
    ∧ (init_stages conf p lto).length =
      NUM_NON_LTO_STAGES + (if lto then 1 else 0) := by
  cases lto <;> exact ⟨rfl, rfl, rfl⟩

/-! ## Claim C3 (confirmed) -/

/-- C3: for every stage with a predecessor, the executor's explicit
target order is `[cxxabi, compiler-rt, cxx, clang]` (ABI library,
sanitizer runtime, C++ standard library, compiler) for LLVM major ≥ 16,
and `[compiler-rt, cxxabi, cxx, clang]` for major ≤ 15. -/
theorem explicit_target_order (conf : ClangBuildConf) (stage : ClangBuildStage)
    (hprev : stage.prev_stage.isSome = true) :
    (16 ≤ conf.llvm_major_version →
      stage.explicit_build_targets conf =
        ["cxxabi", "compiler-rt", "cxx", "clang"])
    ∧ (conf.llvm_major_version ≤ 15 →
      stage.explicit_build_targets conf =
        ["compiler-rt", "cxxabi", "cxx", "clang"]) := by
  unfold ClangBuildStage.explicit_build_targets ClangBuildStage.is_first_stage
  rcases h : stage.prev_stage with _ | prev
  · rw [h] at hprev
    simp at hprev
  · constructor <;> intro hv
    · simp [h, hv]
    · have h16 : ¬ 16 ≤ conf.llvm_major_version := by omega
      simp [h, h16]

theorem explicit_target_order_witness :
    ((stageTwo exampleConf examplePlatform).prev_stage.isSome = true)
    ∧ (stageTwo exampleConf examplePlatform).explicit_build_targets exampleConf =
        ["cxxabi", "compiler-rt", "cxx", "clang"] :=
  ⟨by decide,
   (explicit_target_order exampleConf (stageTwo exampleConf examplePlatform)
     (by decide)).1 (by decide)⟩

/-! ## Claim C8 (confirmed) -/

/-- C8: whenever the resolved flags have PGO enabled and LTO disabled,
`parse_args` raises the configuration error "PGO build requires LTO
enabled".  This happens during flag validation, before the pipeline does
any external work. -/
theorem pgo_without_lto_fails (a : CmdLineArgs)
    (hpgo : a.pgo.getD (a.lto.getD true) = true)
    (hlto : a.lto.getD true = false) :
    parse_args_stage_logic a = .error "PGO build requires LTO enabled" := by
  unfold parse_args_stage_logic
  rw [hlto] at hpgo
  simp [hlto, hpgo]

theorem pgo_without_lto_fails_witness :
    (({ lto := some false, pgo := some true, min_stage := 1,
        max_stage := none, skip_build := false } : CmdLineArgs).pgo.getD true = true)
    ∧ parse_args_stage_logic
        { lto := some false, pgo := some true, min_stage := 1,
          max_stage := none, skip_build := false } =
        .error "PGO build requires LTO enabled" :=
  ⟨by decide,
   pgo_without_lto_fails
     { lto := some false, pgo := some true, min_stage := 1,
       max_stage := none, skip_build := false } (by decide) (by decide)⟩

/-! ## Claim C9 (confirmed) -/

/-- C9: for every flag combination, the stage numbers of the built graph
are exactly `1..N` (no gaps), the first stage has no predecessor
reference, and the stage at position `i+1` holds a predecessor reference
to the stage at position `i` (which, by the numbering, is the stage
numbered one less). -/
theorem stage_graph_numbering (conf : ClangBuildConf) (p : PlatformFacts)
    (lto : Bool) :
    ((init_stages conf p lto).map (fun st => st.stage_number) =
      List.range' 1 (init_stages conf p lto).length)
    ∧ (∀ h0 : 0 < (init_stages conf p lto).length,
        ((init_stages conf p lto).get ⟨0, h0⟩).prev_stage = none)
    ∧ (∀ i, ∀ h : i + 1 < (init_stages conf p lto).length,
        ((init_stages conf p lto).get ⟨i + 1, h⟩).prev_stage =
          some ((init_stages conf p lto).get ⟨i, Nat.lt_of_succ_lt h⟩)
        ∧ ((init_stages conf p lto).get ⟨i + 1, h⟩).stage_number =
          ((init_stages conf p lto).get ⟨i, Nat.lt_of_succ_lt h⟩).stage_number + 1) := by
  refine ⟨init_stages_map_number conf p lto, ?_, ?_⟩
  · intro h0
    cases lto <;> rfl
  · intro i h
    cases lto
    · have h3 : i + 1 < 3 := h
      rcases i with _ | _ | i
      · exact ⟨rfl, rfl⟩
      · exact ⟨rfl, rfl⟩
      · omega
    · have h4 : i + 1 < 4 := h
      rcases i with _ | _ | _ | i
      · exact ⟨rfl, rfl⟩
      · exact ⟨rfl, rfl⟩
      · exact ⟨rfl, rfl⟩
      · omega

theorem stage_graph_numbering_witness :
    (0 < (init_stages exampleConf examplePlatform true).length)
    ∧ ((init_stages exampleConf examplePlatform true).get
        ⟨0, by decide⟩).prev_stage = none
    ∧ ((init_stages exampleConf examplePlatform true).get
        ⟨3, by decide⟩).prev_stage =
      some ((init_stages exampleConf examplePlatform true).get ⟨2, by decide⟩) :=
  ⟨by decide,
   (stage_graph_numbering exampleConf examplePlatform true).2.1 (by decide),
   ((stage_graph_numbering exampleConf examplePlatform true).2.2 2 (by decide)).1⟩

/-! ## Claim C4 (confirmed) -/

/-- C4: for every global flag combination (configuration and platform),
a stage with no predecessor never has the sanitizer runtime
(compiler-rt), the C++ standard library (libcxx), or the C++ ABI library
(libcxxabi) among its enabled runtimes or enabled projects. -/
theorem first_stage_excludes_runtime_libs (conf : ClangBuildConf)
    (p : PlatformFacts) (stage : ClangBuildStage)
    (hfirst : stage.prev_stage = none) :
    ∀ r ∈ ["compiler-rt", "libcxx", "libcxxabi"],
      r ∉ stage.get_enabled_runtimes conf
      ∧ r ∉ stage.get_enabled_projects conf p := by
  intro r hr
  have hf : stage.is_first_stage = true := by
    simp [ClangBuildStage.is_first_stage, hfirst]
  have hrt : ∀ s ∈ stage.get_enabled_runtimes conf,
      s = "libunwind" ∨ s = "openmp" := by
    intro s hs
    unfold ClangBuildStage.get_enabled_runtimes at hs
    rw [hf] at hs
    simp only [not_true, if_false] at hs
    split_ifs at hs <;> simp_all
  simp only [List.mem_cons, List.not_mem_nil, or_false] at hr
  have hrt' : r ∉ stage.get_enabled_runtimes conf := by
    intro h
    rcases hrt r h with h2 | h2 <;> rcases hr with rfl | rfl | rfl <;> simp_all
  refine ⟨hrt', ?_⟩
  intro hmem
  unfold ClangBuildStage.get_enabled_projects at hmem
  rw [pySorted, List.mem_insertionSort] at hmem
  have hml : multiline_str_to_list "\n            clang\n            lld\n        " =
      ["clang", "lld"] := by decide
  rw [hml] at hmem
  rcases hr with rfl | rfl | rfl <;> split_ifs at hmem <;> simp_all

theorem first_stage_excludes_runtime_libs_witness :
    ((stageOne exampleConf examplePlatform).prev_stage = none)
    ∧ "compiler-rt" ∉
        (stageOne exampleConf examplePlatform).get_enabled_runtimes exampleConf :=
  ⟨rfl,
   (first_stage_excludes_runtime_libs exampleConf examplePlatform
     (stageOne exampleConf examplePlatform) rfl "compiler-rt" (by decide)).1⟩

/-! ## Claim C5 (corrected) -/

/-- C5, counterexample.  With LTO enabled and the valid requested window
`[min_stage, max_stage] = [1, 3]` (the graph has stages 1..4, so the
window is within range), the run loop builds stages `[1, 2, 3, 4]` —
stage 4 lies outside the requested window, because `run` overrides
`max_stage` to `NUM_NON_LTO_STAGES + 1` whenever LTO is on. -/
theorem run_outside_requested_window_counterexample :
    built_stage_numbers exampleConf examplePlatform true 1 3 = [1, 2, 3, 4]
    ∧ ¬ (built_stage_numbers exampleConf examplePlatform true 1 3 = [1, 2, 3]) := by
  decide

/-- C5, amended: the executor builds exactly the stages whose number lies
in `[min_stage, effective_max_stage]`, in increasing order, where the
effective maximum is the requested `max_stage` for non-LTO runs but is
overridden to `NUM_NON_LTO_STAGES + 1` whenever LTO is enabled. -/
theorem run_builds_effective_window (conf : ClangBuildConf) (p : PlatformFacts)
    (lto : Bool) (min_stage max_stage : Int) :
    built_stage_numbers conf p lto min_stage max_stage =
      (List.range' 1 (init_stages conf p lto).length).filter
        (fun (n : Nat) => decide (min_stage ≤ (n : Int) ∧
          (n : Int) ≤ effective_max_stage lto max_stage))
    ∧ List.Sorted (· < ·) (built_stage_numbers conf p lto min_stage max_stage) := by
  have key : built_stage_numbers conf p lto min_stage max_stage =
      (List.range' 1 (init_stages conf p lto).length).filter
        (fun (n : Nat) => decide (min_stage ≤ (n : Int) ∧
          (n : Int) ≤ effective_max_stage lto max_stage)) := by
    cases lto <;>
      simp only [built_stage_numbers, built_stages, init_stages_false_eq,
        init_stages_true_eq, List.length_cons, List.length_nil, List.filter_cons,
        stageOne, stageTwo, stageThree, stageFourLto, ClangBuildStage.init,
        List.range'] <;>
      norm_num <;>
      split_ifs <;>
      simp_all
  refine ⟨key, ?_⟩
  rw [key]
  exact List.Pairwise.filter _ (List.pairwise_lt_range' 1 _)

/-! ## Claim C1 (code_bug) -/

/-- C1: the source's own comment says that for the second stage and later
it tells Clang to default to the newly built libc++
(`CLANG_DEFAULT_CXX_STDLIB = 'libc++'`), and `get_llvm_cmake_variables`
assigns exactly that — but the assignment is immediately clobbered by the
re-binding `vars = dict(...)` on the next statement, so the derived
CMake option map of a stage with a predecessor (here: stage 2, LLVM
16.0.6-yb-3, Linux/x86_64) contains **no** `CLANG_DEFAULT_CXX_STDLIB`
entry at all.  (The `CMAKE_BUILD_TYPE` lookup shows the map itself is
derived normally.) -/
theorem clang_default_cxx_stdlib_dropped :
    ((stageTwo exampleConf examplePlatform).get_llvm_cmake_variables
        exampleConf examplePlatform).map
      (fun m => lookupVar m "CLANG_DEFAULT_CXX_STDLIB") = .ok none
    ∧ ((stageTwo exampleConf examplePlatform).get_llvm_cmake_variables
        exampleConf examplePlatform).map
      (fun m => lookupVar m "CMAKE_BUILD_TYPE") = .ok (some "Release") :=
  ⟨rfl, rfl⟩

/-! ## Claim C6 (confirmed) -/

theorem get_compilers_ok (p : PlatformFacts) (stage : ClangBuildStage)
    (h : stage.stage_number = 1 ∨ stage.prev_stage.isSome = true) :
    ∃ cc, stage.get_compilers p = .ok cc := by
  unfold ClangBuildStage.get_compilers
  by_cases hn : stage.stage_number = 1
  · exact ⟨(p.system_c_compiler, p.system_cxx_compiler), by simp [hn]⟩
  · rcases hp : stage.prev_stage with _ | prev
    · rcases h with h1 | h1
      · exact absurd h1 hn
      · rw [hp] at h1
        simp at h1
    · exact ⟨(pathJoin3 prev.install_prefix "bin" "clang",
              pathJoin3 prev.install_prefix "bin" "clang++"), by simp [hn, hp]⟩

theorem get_llvm_cmake_variables_ok (conf : ClangBuildConf) (p : PlatformFacts)
    (stage : ClangBuildStage)
    (h : stage.stage_number = 1 ∨ stage.prev_stage.isSome = true) :
    ∃ m, stage.get_llvm_cmake_variables conf p = .ok m := by
  obtain ⟨cc, hcc⟩ := get_compilers_ok p stage h
  unfold ClangBuildStage.get_llvm_cmake_variables
  by_cases hw : conf.use_compiler_wrapper
  · simp [hw]
  · simp [hw, hcc, Except.map]

/-- C6: deriving a stage's CMake option map (which embeds the
enabled-component lists via `LLVM_ENABLE_PROJECTS` /
`LLVM_ENABLE_RUNTIMES`) is total: for every stage of a graph built by
`init_stages`, every configuration produced by the public constructor,
and every platform, it returns an option map and never reaches an error
(the only potential failure points are the two `assert prev_stage`
checks, which the graph structure discharges). -/
theorem derive_total
    (ipd version : String) (uss : Option String)
    (sas cb ucw ucr : Bool) (ebd : Option String) (par : Option Nat)
    (bts uts ta : String) (oe : Bool)
    (conf : ClangBuildConf) (p : PlatformFacts) (lto : Bool)
    (stage : ClangBuildStage)
    (hconf : ClangBuildConf.init ipd version uss sas cb ucw ucr ebd par
      bts uts ta oe = .ok conf)
    (hmem : stage ∈ init_stages conf p lto) :
    ∃ m, stage.get_llvm_cmake_variables conf p = .ok m := by
  apply get_llvm_cmake_variables_ok
  cases lto
  · rw [init_stages_false_eq] at hmem
    simp only [List.mem_cons, List.not_mem_nil, or_false] at hmem
    rcases hmem with rfl | rfl | rfl
    · exact Or.inl rfl
    · exact Or.inr rfl
    · exact Or.inr rfl
  · rw [init_stages_true_eq] at hmem
    simp only [List.mem_cons, List.not_mem_nil, or_false] at hmem
    rcases hmem with rfl | rfl | rfl | rfl
    · exact Or.inl rfl
    · exact Or.inr rfl
    · exact Or.inr rfl
    · exact Or.inr rfl

/-- Does an `Except` computation end in success? -/
def exceptIsOk : Except ε α → Bool
  | .ok _ => true
  | .error _ => false

theorem derive_total_witness :
    exceptIsOk ((stageThree exampleConf examplePlatform).get_llvm_cmake_variables
      exampleConf examplePlatform) = true := by
  obtain ⟨m, hm⟩ := derive_total "/opt/yb-build/llvm" "16.0.6-yb-3" none
    false false false true none none "2026-01-01T00-00-00.000000" "1760000000"
    "x86_64" true exampleConf examplePlatform false
    (stageThree exampleConf examplePlatform)
    (by rfl)
    (by rw [init_stages_false_eq]
        exact List.mem_cons_of_mem _ (List.mem_cons_of_mem _ (List.mem_cons_self _ _)))
  rw [hm]
  rfl

/-! ## Claim C7 (corrected) -/

theorem takeWhile_all_eq {p : Char → Bool} {l : List Char}
    (h : ∀ x ∈ l, p x = true) : l.takeWhile p = l :=
  List.takeWhile_eq_self_iff.mpr h

theorem os_path_basename_no_slash (b : String)
    (h : ∀ c ∈ b.data, c ≠ '/') : os_path_basename b = b := by
  apply String.ext
  show (b.data.reverse.takeWhile (fun c => decide (c ≠ '/'))).reverse = b.data
  rw [takeWhile_all_eq (p := fun c => decide (c ≠ '/'))]
  · exact List.reverse_reverse b.data
  · intro x hx
    simp only [List.mem_reverse] at hx
    simpa using h x hx

theorem os_path_basename_pathJoin (a b : String)
    (h : ∀ c ∈ b.data, c ≠ '/') : os_path_basename (pathJoin a b) = b := by
  apply String.ext
  have hdata : (pathJoin a b).data = (a.data ++ ['/']) ++ b.data := by
    simp [pathJoin, String.data_append]
  have hself : b.data.reverse.takeWhile (fun c => decide (c ≠ '/')) = b.data.reverse := by
    apply takeWhile_all_eq
    intro x hx
    simp only [List.mem_reverse] at hx
    simpa using h x hx
  show ((pathJoin a b).data.reverse.takeWhile (fun c => decide (c ≠ '/'))).reverse = b.data
  rw [hdata, List.reverse_append, List.takeWhile_append, hself]
  simp [List.reverse_append]

theorem pySliceTrim_round (t : String) :
    pySliceTrim (YB_LLVM_ARCHIVE_NAME_PREFIX ++ t ++ BUILD_DIR_SUFFIX_WITH_SEPARATOR)
      YB_LLVM_ARCHIVE_NAME_PREFIX.length BUILD_DIR_SUFFIX_WITH_SEPARATOR.length = t := by
  apply String.ext
  have h8 : YB_LLVM_ARCHIVE_NAME_PREFIX.data.length = 8 := rfl
  have h8' : YB_LLVM_ARCHIVE_NAME_PREFIX.length = 8 := rfl
  have h6 : BUILD_DIR_SUFFIX_WITH_SEPARATOR.data.length = 6 := rfl
  have h6' : BUILD_DIR_SUFFIX_WITH_SEPARATOR.length = 6 := rfl
  have hdata : (YB_LLVM_ARCHIVE_NAME_PREFIX ++ t ++ BUILD_DIR_SUFFIX_WITH_SEPARATOR).data =
      YB_LLVM_ARCHIVE_NAME_PREFIX.data ++
        (t.data ++ BUILD_DIR_SUFFIX_WITH_SEPARATOR.data) := by
    simp [String.data_append]
  show ((YB_LLVM_ARCHIVE_NAME_PREFIX ++ t ++ BUILD_DIR_SUFFIX_WITH_SEPARATOR).data.drop
      YB_LLVM_ARCHIVE_NAME_PREFIX.length).take
      ((YB_LLVM_ARCHIVE_NAME_PREFIX ++ t ++
        BUILD_DIR_SUFFIX_WITH_SEPARATOR).data.length -
        YB_LLVM_ARCHIVE_NAME_PREFIX.length - BUILD_DIR_SUFFIX_WITH_SEPARATOR.length) =
      t.data
  rw [hdata, h8', h6', List.drop_left' h8]
  have hlen : (YB_LLVM_ARCHIVE_NAME_PREFIX.data ++
      (t.data ++ BUILD_DIR_SUFFIX_WITH_SEPARATOR.data)).length - 8 - 6 =
      t.data.length := by
    simp only [List.length_append, h8, h6]
    omega
  rw [hlen, List.take_left' rfl]

theorem pyStartswith_concat (t : String) :
    pyStartswith (YB_LLVM_ARCHIVE_NAME_PREFIX ++ t ++ BUILD_DIR_SUFFIX_WITH_SEPARATOR)
      YB_LLVM_ARCHIVE_NAME_PREFIX = true := by
  unfold pyStartswith
  rw [ List.isPrefixOf_iff_prefix]
  simp only [String.data_append, List.append_assoc]
  exact List.prefix_append _ _

theorem pyEndswith_concat (t : String) :
    pyEndswith (YB_LLVM_ARCHIVE_NAME_PREFIX ++ t ++ BUILD_DIR_SUFFIX_WITH_SEPARATOR)
      BUILD_DIR_SUFFIX_WITH_SEPARATOR = true := by
  unfold pyEndswith
  rw [List.isSuffixOf_iff_suffix]
  simp only [String.data_append]
  exact List.suffix_append _ _

/-- The configuration obtained by resuming from the degenerate existing
build directory name `yb-llvm-build` (which starts with the archive-name
prefix and ends with the build-directory suffix, yet parses to an empty
tag). -/
def exampleExistingConf : ClangBuildConf := {
  install_parent_dir := "/opt/yb-build/llvm"
  version := "16.0.6-yb-3"
  llvm_major_version := 16
  user_specified_suffix := none
  skip_auto_suffix := true
  git_sha1_prefix := none
  cmake_executable_path := "cmake"
  clean_build := false
  build_start_timestamp_str := "2026-01-01T00-00-00.000000"
  use_compiler_wrapper := false
  use_compiler_rt := true
  unix_timestamp_for_suffix := none
  existing_build_dir := some "yb-llvm-build"
  tag_override := some ""
  parallelism := none
  target_arch := "x86_64"
  openmp_enabled := true }

/-- C7, counterexample.  `"yb-llvm-build"` is well-formed in the claim's
sense — it starts with the archive-name prefix `yb-llvm-` and ends with
the build suffix `-build` — and the constructor accepts it, but the
parsed tag is empty (falsy), so `get_tag` falls back to the
version-derived tag and the re-derived build-parent basename is
`yb-llvm-v16.0.6-yb-3-build`, not the original name. -/
theorem round_trip_counterexample :
    ClangBuildConf.init "/opt/yb-build/llvm" "16.0.6-yb-3" none true false false
      true (some "yb-llvm-build") none "2026-01-01T00-00-00.000000" "" "x86_64"
      true = .ok exampleExistingConf
    ∧ pyStartswith "yb-llvm-build" YB_LLVM_ARCHIVE_NAME_PREFIX = true
    ∧ pyEndswith "yb-llvm-build" BUILD_DIR_SUFFIX_WITH_SEPARATOR = true
    ∧ os_path_basename
        (exampleExistingConf.get_llvm_build_parent_dir examplePlatform) ≠
      "yb-llvm-build" :=
  ⟨rfl, by decide, by decide, by decide⟩

/-- C7, amended: the round trip holds for every well-formed existing
build-directory name whose tag part (the characters between the fixed
prefix and suffix) is non-empty — as any real directory basename, it
contains no path separator.  For such a name, constructing a
configuration from it and re-deriving the build-parent directory
basename returns the original name, and the final install path's
basename is the name with the build suffix removed. -/
theorem existing_build_dir_round_trip
    (ipd version t : String) (uss : Option String) (sas cb ucw ucr : Bool)
    (par : Option Nat) (bts uts ta : String) (oe : Bool)
    (p : PlatformFacts) (conf : ClangBuildConf)
    (ht : t ≠ "") (hslash : ∀ c ∈ t.data, c ≠ '/')
    (hconf : ClangBuildConf.init ipd version uss sas cb ucw ucr
      (some (YB_LLVM_ARCHIVE_NAME_PREFIX ++ t ++ BUILD_DIR_SUFFIX_WITH_SEPARATOR))
      par bts uts ta oe = .ok conf) :
    os_path_basename (conf.get_llvm_build_parent_dir p) =
      YB_LLVM_ARCHIVE_NAME_PREFIX ++ t ++ BUILD_DIR_SUFFIX_WITH_SEPARATOR
    ∧ os_path_basename (conf.get_final_install_dir p) =
      YB_LLVM_ARCHIVE_NAME_PREFIX ++ t := by
  have hP : ∀ c ∈ YB_LLVM_ARCHIVE_NAME_PREFIX.data, c ≠ '/' := by decide
  have hS : ∀ c ∈ BUILD_DIR_SUFFIX_WITH_SEPARATOR.data, c ≠ '/' := by decide
  have hPt : ∀ c ∈ (YB_LLVM_ARCHIVE_NAME_PREFIX ++ t).data, c ≠ '/' := by
    intro c hc
    rw [String.data_append] at hc
    rcases List.mem_append.mp hc with h | h
    · exact hP c h
    · exact hslash c h
  have hB : ∀ c ∈ (YB_LLVM_ARCHIVE_NAME_PREFIX ++ t ++
      BUILD_DIR_SUFFIX_WITH_SEPARATOR).data, c ≠ '/' := by
    intro c hc
    rw [String.data_append] at hc
    rcases List.mem_append.mp hc with h | h
    · exact hPt c h
    · exact hS c h
  unfold ClangBuildConf.init at hconf
  cases hm : get_major_version version with
  | none => rw [hm] at hconf; exact absurd hconf (by simp)
  | some maj =>
    rw [hm] at hconf
    by_cases h7 : maj < 7
    · simp only [h7, if_true] at hconf
      exact absurd hconf (by simp)
    · simp only [h7, if_false, os_path_basename_no_slash _ hB, pyEndswith_concat,
        pyStartswith_concat, Bool.not_true, Bool.false_eq_true, not_true,
        if_false, ite_false, Except.ok.injEq] at hconf
      subst hconf
      have htag : ClangBuildConf.get_tag
          { install_parent_dir := ipd, version := version, llvm_major_version := maj,
            user_specified_suffix := uss, skip_auto_suffix := sas,
            git_sha1_prefix := none, cmake_executable_path := "cmake",
            clean_build := cb, build_start_timestamp_str := bts,
            use_compiler_wrapper := ucw, use_compiler_rt := ucr,
            unix_timestamp_for_suffix := none,
            existing_build_dir := some (YB_LLVM_ARCHIVE_NAME_PREFIX ++ t ++
              BUILD_DIR_SUFFIX_WITH_SEPARATOR),
            tag_override := some (pySliceTrim (YB_LLVM_ARCHIVE_NAME_PREFIX ++ t ++
              BUILD_DIR_SUFFIX_WITH_SEPARATOR) YB_LLVM_ARCHIVE_NAME_PREFIX.length
              BUILD_DIR_SUFFIX_WITH_SEPARATOR.length),
            parallelism := par, target_arch := ta, openmp_enabled := oe } p = t := by
        unfold ClangBuildConf.get_tag
        simp only [pySliceTrim_round]
        simp [pyTruthyStr, ht]
      constructor
      · unfold ClangBuildConf.get_llvm_build_parent_dir
        unfold ClangBuildConf.get_install_dir_basename
        rw [htag]
        exact os_path_basename_pathJoin _ _ (by
          intro c hc
          rw [String.data_append] at hc
          rcases List.mem_append.mp hc with h | h
          · exact hPt c h
          · exact hS c h)
      · unfold ClangBuildConf.get_final_install_dir
        unfold ClangBuildConf.get_install_dir_basename
        rw [htag]
        exact os_path_basename_pathJoin _ _ hPt

/-- The configuration obtained by resuming from the well-formed existing
build directory name
`yb-llvm-v16.0.6-yb-3-1618898532-abcd1234-centos7-x86_64-build`. -/
def exampleRoundTripConf : ClangBuildConf := {
  install_parent_dir := "/opt/yb-build/llvm"
  version := "16.0.6-yb-3"
  llvm_major_version := 16
  user_specified_suffix := none
  skip_auto_suffix := true
  git_sha1_prefix := none
  cmake_executable_path := "cmake"
  clean_build := false
  build_start_timestamp_str := "2026-01-01T00-00-00.000000"
  use_compiler_wrapper := false
  use_compiler_rt := true
  unix_timestamp_for_suffix := none
  existing_build_dir := some (YB_LLVM_ARCHIVE_NAME_PREFIX ++
    "v16.0.6-yb-3-1618898532-abcd1234-centos7-x86_64" ++
    BUILD_DIR_SUFFIX_WITH_SEPARATOR)
  tag_override := some (pySliceTrim (YB_LLVM_ARCHIVE_NAME_PREFIX ++
    "v16.0.6-yb-3-1618898532-abcd1234-centos7-x86_64" ++
    BUILD_DIR_SUFFIX_WITH_SEPARATOR) YB_LLVM_ARCHIVE_NAME_PREFIX.length
    BUILD_DIR_SUFFIX_WITH_SEPARATOR.length)
  parallelism := none
  target_arch := "x86_64"
  openmp_enabled := true }

theorem existing_build_dir_round_trip_witness :
    ("v16.0.6-yb-3-1618898532-abcd1234-centos7-x86_64" ≠ "")
    ∧ os_path_basename
        ((exampleRoundTripConf).get_llvm_build_parent_dir examplePlatform) =
      YB_LLVM_ARCHIVE_NAME_PREFIX ++ "v16.0.6-yb-3-1618898532-abcd1234-centos7-x86_64" ++
        BUILD_DIR_SUFFIX_WITH_SEPARATOR :=
  ⟨by decide,
   (existing_build_dir_round_trip "/opt/yb-build/llvm" "16.0.6-yb-3"
     "v16.0.6-yb-3-1618898532-abcd1234-centos7-x86_64" none true false false true
     none "2026-01-01T00-00-00.000000" "" "x86_64" true examplePlatform
     exampleRoundTripConf (by decide) (by decide) (by rfl)).1⟩

/-! ## Claim C10 (confirmed) -/

/-- The file a build action mutates, if any: the destination of a
`copyfile`, the target of a chmod; external tool invocations (opaque by
the spec's boundary), directory creation and the removal of the stage's
own build directory touch no installed file. -/
def BuildAction.mutated_file : BuildAction → Option String
  | .copyFile _ dst => some dst
  | .makeExecutable path => some path
  | _ => none

def mutated_files (acts : List BuildAction) : List String :=
  acts.filterMap BuildAction.mutated_file

/-- The basename `install_binary_to_final_dir` actually installs: the
link target's basename if the built binary is a symlink (e.g. `clang` →
`clang-16`), else the binary name itself. -/
def resolved_binary_name (fs : FsFacts) (stage : ClangBuildStage)
    (name : String) : String :=
  if fs.is_link (pathJoin3 stage.cmake_build_dir "bin" name) then
    fs.readlink_basename (pathJoin3 stage.cmake_build_dir "bin" name)
  else name

/-- C10: when an LTO stage's build succeeds, the files it mutates are
exactly the two binaries `bin/<resolved clang>` and `bin/<resolved lld>`
under the **final install directory** (each copied, then marked
executable), and every `copyfile` source lies in the stage's own CMake
build directory.  No other file — in particular no previously installed
runtime library — is written. -/
theorem lto_stage_mutates_exactly_two_binaries
    (conf : ClangBuildConf) (p : PlatformFacts) (fs : FsFacts)
    (stage : ClangBuildStage) (acts : List BuildAction)
    (hlto : stage.lto = true)
    (hacts : stage.build_actions conf p fs = .ok acts) :
    mutated_files acts =
      [pathJoin (conf.get_final_install_dir p)
         (pathJoin "bin" (resolved_binary_name fs stage "clang")),
       pathJoin (conf.get_final_install_dir p)
         (pathJoin "bin" (resolved_binary_name fs stage "clang")),
       pathJoin (conf.get_final_install_dir p)
         (pathJoin "bin" (resolved_binary_name fs stage "lld")),
       pathJoin (conf.get_final_install_dir p)
         (pathJoin "bin" (resolved_binary_name fs stage "lld"))]
    ∧ (∀ s d, BuildAction.copyFile s d ∈ acts →
        ∃ rel, s = pathJoin stage.cmake_build_dir rel) := by
  simp only [ClangBuildStage.build_actions, hlto, if_true, bind, Except.bind] at hacts
  cases hcomp : stage.get_compilers p with
  | error e => rw [hcomp] at hacts; simp at hacts
  | ok cc =>
    rw [hcomp] at hacts
    cases hvars : stage.get_llvm_cmake_variables conf p with
    | error e => rw [hvars] at hacts; simp at hacts
    | ok cmake_vars =>
      rw [hvars] at hacts
      unfold ClangBuildStage.install_binary_to_final_dir at hacts
      by_cases hex1 : fs.path_exists (pathJoin3 stage.cmake_build_dir "bin" "clang")
      · by_cases hex2 : fs.path_exists (pathJoin3 stage.cmake_build_dir "bin" "lld")
        · simp only [hex1, hex2, Bool.not_true, if_false, ite_false,
            Bool.false_eq_true] at hacts
          injection hacts with h
          subst h
          constructor
          · simp [mutated_files, List.filterMap_append, List.filterMap_map,
              BuildAction.mutated_file, resolved_binary_name]
            split_ifs <;> simp [BuildAction.mutated_file]
          · intro s d hmem
            split_ifs at hmem <;>
              simp at hmem <;>
              rcases hmem with ⟨hs, _⟩ | ⟨hs, _⟩ <;>
              exact ⟨_, hs⟩
        · simp [hex1, hex2] at hacts
      · simp [hex1] at hacts

/-- The action trace of the LTO stage's build on the example
configuration (all consulted paths exist, nothing is a symlink). -/
def exampleLtoActs : List BuildAction :=
  match (stageFourLto exampleConf examplePlatform).build_actions exampleConf
      examplePlatform exampleFs with
  | .ok acts => acts
  | .error _ => []

theorem lto_stage_mutates_exactly_two_binaries_witness :
    mutated_files exampleLtoActs =
      [pathJoin (exampleConf.get_final_install_dir examplePlatform)
         (pathJoin "bin" (resolved_binary_name exampleFs
           (stageFourLto exampleConf examplePlatform) "clang")),
       pathJoin (exampleConf.get_final_install_dir examplePlatform)
         (pathJoin "bin" (resolved_binary_name exampleFs
           (stageFourLto exampleConf examplePlatform) "clang")),
       pathJoin (exampleConf.get_final_install_dir examplePlatform)
         (pathJoin "bin" (resolved_binary_name exampleFs
           (stageFourLto exampleConf examplePlatform) "lld")),
       pathJoin (exampleConf.get_final_install_dir examplePlatform)
         (pathJoin "bin" (resolved_binary_name exampleFs
           (stageFourLto exampleConf examplePlatform) "lld"))] :=
  (lto_stage_mutates_exactly_two_binaries exampleConf examplePlatform exampleFs
    (stageFourLto exampleConf examplePlatform) exampleLtoActs rfl (by rfl)).1

end BuildClang
